import Mathlib

/-!
Shallow embedding of the Intcode interpreter in src/2019/9/src/main.rs
(Advent of Code 2018 repository, 2019 day 9 solution).

The Rust CPU owns `ip : usize`, `rbase : i64`, `memory : Vec<i64>`.
We model `i64` values as `Int` (the workload stays far below 2^63, and the
spec's numeric-domain properties are about width sufficiency, not wrapping),
`usize` indices as `Nat`, and the Rust `as usize` cast of an `i64` --
a two's-complement reinterpretation -- explicitly as reduction modulo 2^64.
Every Rust panic (bad index, invalid opcode, invalid mode, bad write
destination, assertion failure, input read/parse failure) becomes an
`Except.error` carrying a `Fault`; `/` and `%` on `i64` are truncated
division, i.e. `Int.tdiv` and `Int.tmod`.
-/

namespace Aoc9

/-- enum Parameter: an addressing-mode-tagged raw parameter word. -/
inductive Parameter where
  | Position (v : Int)
  | Immediate (v : Int)
  | Relative (v : Int)
deriving DecidableEq

/-- enum Instruction: a decoded operation with its parameter list. -/
inductive Instruction where
  | ADD (args : List Parameter)
  | MUL (args : List Parameter)
  | INPUT (args : List Parameter)
  | OUTPUT (args : List Parameter)
  | JUMP (test : Bool) (args : List Parameter)
  | LESSTHAN (args : List Parameter)
  | EQUALS (args : List Parameter)
  | RELBASE (args : List Parameter)
  | HALT
deriving DecidableEq

/-- The ways the Rust program can panic during a run. -/
inductive Fault where
  | invalidParameterMode (digit : Int)
  | invalidOpcode (value : Int) (pos : Nat)
  | invalidWriteDestination
  | memoryOutOfBounds (index : Nat)
  | inputFailure
  | assertionFailure
deriving DecidableEq

/-- struct Cpu { ip: usize, rbase: i64, pub memory: Vec<i64> }. -/
structure Cpu where
  ip : Nat
  rbase : Int
  memory : List Int
deriving DecidableEq

/-- Rust `x as usize` on an i64: reinterpretation modulo 2^64
(a negative i64 becomes a huge index, which is then out of bounds
for any memory this program allocates). -/
def castUsize (x : Int) : Nat := (x % (18446744073709551616 : Int)).toNat

/-- Bounds-checked list lookup, walking the list (equals `m[i]?`,
proved below). -/
def readIdx : List Int → Nat → Option Int
  | [], _ => none
  | a :: _, 0 => some a
  | _ :: l, n + 1 => readIdx l n

/-- Bounds-checked list update, walking the list (equals a guarded
`m.set i v`, proved below). -/
def writeIdx : List Int → Nat → Int → Option (List Int)
  | [], _, _ => none
  | _ :: l, 0, v => some (v :: l)
  | a :: l, n + 1, v =>
    match writeIdx l n v with
    | none => none
    | some l2 => some (a :: l2)

/-- Whether index i is within the list (equals `decide (i < m.length)`,
proved below). -/
def hasIndex : List Int → Nat → Bool
  | [], _ => false
  | _ :: _, 0 => true
  | _ :: l, n + 1 => hasIndex l n

/-- A Rust `self.memory[i]` read: the value, or the index-out-of-bounds panic. -/
def readMem (m : List Int) (i : Nat) : Except Fault Int :=
  match readIdx m i with
  | some v => Except.ok v
  | none => Except.error (Fault.memoryOutOfBounds i)

/-- A Rust `self.memory[i] = v` write: the updated memory, or the
index-out-of-bounds panic. -/
def writeMem (m : List Int) (i : Nat) (v : Int) : Except Fault (List Int) :=
  match writeIdx m i v with
  | some m2 => Except.ok m2
  | none => Except.error (Fault.memoryOutOfBounds i)

/-- Vec::resize(n, 0): pad with zeros up to length n, or truncate down to n. -/
def resize (v : List Int) (n : Nat) : List Int :=
  if v.length ≤ n then v ++ List.replicate (n - v.length) 0 else v.take n

/-- Cpu::new on an explicitly supplied program (`Some(mem)` in the Rust code;
the `None` arm loads input.txt, an external collaborator outside the core). -/
def Cpu.new (prog : List Int) : Cpu :=
  { ip := 0, rbase := 0, memory := resize prog 4096 }

/-- The body of the `for i in 0..cnt` loop of Cpu::pack_parameters:
read the raw word at `pos`, tag it with the mode selected by the lowest
remaining flags digit, recurse with `flags / 10`. -/
def packFrom (mem : List Int) (pos : Nat) (flags : Int) : Nat → Except Fault (List Parameter)
  | 0 => Except.ok []
  | n + 1 =>
    match readMem mem pos with
    | Except.error f => Except.error f
    | Except.ok v =>
      match (if flags.tmod 10 = 0 then Except.ok (Parameter.Position v)
             else if flags.tmod 10 = 1 then Except.ok (Parameter.Immediate v)
             else if flags.tmod 10 = 2 then Except.ok (Parameter.Relative v)
             else Except.error (Fault.invalidParameterMode (flags.tmod 10)) :
               Except Fault Parameter) with
      | Except.error f => Except.error f
      | Except.ok p =>
        match packFrom mem (pos + 1) (flags.tdiv 10) n with
        | Except.error f => Except.error f
        | Except.ok rest => Except.ok (p :: rest)

/-- Cpu::pack_parameters: flags come from the opcode word at ip - 1
divided by 100; cnt raw words are read starting at ip, then ip += cnt. -/
def pack_parameters (cpu : Cpu) (cnt : Nat) : Except Fault (List Parameter × Cpu) :=
  match readMem cpu.memory (cpu.ip - 1) with
  | Except.error f => Except.error f
  | Except.ok w =>
    match packFrom cpu.memory cpu.ip (w.tdiv 100) cnt with
    | Except.error f => Except.error f
    | Except.ok ps => Except.ok (ps, { cpu with ip := cpu.ip + cnt })

/-- Cpu::unpack_parameter: Immediate is the raw value, Position reads
memory[x as usize], Relative reads memory[(rbase + x) as usize]. -/
def unpack_parameter (cpu : Cpu) (p : Parameter) : Except Fault Int :=
  match p with
  | Parameter.Immediate x => Except.ok x
  | Parameter.Position x => readMem cpu.memory (castUsize x)
  | Parameter.Relative x => readMem cpu.memory (castUsize (cpu.rbase + x))

/-- Helper for the decode arms `Instruction::X(self.pack_parameters(cnt))`. -/
def decodeWith (cpu : Cpu) (cnt : Nat) (ctor : List Parameter → Instruction) :
    Except Fault (Instruction × Cpu) :=
  match pack_parameters cpu cnt with
  | Except.error f => Except.error f
  | Except.ok (a, c) => Except.ok (ctor a, c)

/-- The body of Cpu::fetch_and_decode after its `self.ip += 1`:
opcode = memory[ip - 1] % 100, dispatch on the opcode; an unrecognized
opcode panics with the opcode value and its position ip - 1. -/
def fetch_decode_at (cpu1 : Cpu) : Except Fault (Instruction × Cpu) :=
  match readMem cpu1.memory (cpu1.ip - 1) with
  | Except.error f => Except.error f
  | Except.ok w =>
    if w.tmod 100 = 1 then decodeWith cpu1 3 Instruction.ADD
    else if w.tmod 100 = 2 then decodeWith cpu1 3 Instruction.MUL
    else if w.tmod 100 = 3 then decodeWith cpu1 1 Instruction.INPUT
    else if w.tmod 100 = 4 then decodeWith cpu1 1 Instruction.OUTPUT
    else if w.tmod 100 = 5 then decodeWith cpu1 2 (Instruction.JUMP true)
    else if w.tmod 100 = 6 then decodeWith cpu1 2 (Instruction.JUMP false)
    else if w.tmod 100 = 7 then decodeWith cpu1 3 Instruction.LESSTHAN
    else if w.tmod 100 = 8 then decodeWith cpu1 3 Instruction.EQUALS
    else if w.tmod 100 = 9 then decodeWith cpu1 1 Instruction.RELBASE
    else if w.tmod 100 = 99 then Except.ok (Instruction.HALT, cpu1)
    else Except.error (Fault.invalidOpcode (w.tmod 100) (cpu1.ip - 1))

/-- Cpu::fetch_and_decode: ip += 1, then read the opcode word just
stepped past and dispatch. -/
def fetch_and_decode (cpu : Cpu) : Except Fault (Instruction × Cpu) :=
  fetch_decode_at { cpu with ip := cpu.ip + 1 }

/-- Cpu::op_add: the destination must match Parameter::Position
(any other mode, Immediate or Relative, hits the
"Dest argument should never be immediate" panic), and the sum of the two
unpacked operands is stored at memory[dest as usize]. -/
def op_add (cpu : Cpu) (args : List Parameter) : Except Fault Cpu :=
  match args with
  | [p0, p1, p2] =>
    match p2 with
    | Parameter.Position dest =>
      match unpack_parameter cpu p0 with
      | Except.error f => Except.error f
      | Except.ok a =>
        match unpack_parameter cpu p1 with
        | Except.error f => Except.error f
        | Except.ok b =>
          match writeMem cpu.memory (castUsize dest) (a + b) with
          | Except.error f => Except.error f
          | Except.ok m2 => Except.ok { cpu with memory := m2 }
    | _ => Except.error Fault.invalidWriteDestination
  | _ => Except.error Fault.assertionFailure

/-- Cpu::op_mul, same shape as op_add with a product. -/
def op_mul (cpu : Cpu) (args : List Parameter) : Except Fault Cpu :=
  match args with
  | [p0, p1, p2] =>
    match p2 with
    | Parameter.Position dest =>
      match unpack_parameter cpu p0 with
      | Except.error f => Except.error f
      | Except.ok a =>
        match unpack_parameter cpu p1 with
        | Except.error f => Except.error f
        | Except.ok b =>
          match writeMem cpu.memory (castUsize dest) (a * b) with
          | Except.error f => Except.error f
          | Except.ok m2 => Except.ok { cpu with memory := m2 }
    | _ => Except.error Fault.invalidWriteDestination
  | _ => Except.error Fault.assertionFailure

/-- Cpu::op_input: NOTE the Rust code computes
`dest = self.unpack_parameter(args[0])` -- it DEREFERENCES the destination
parameter -- and then stores the parsed input at memory[dest as usize].
The input stream is modelled as a list of already-parsed integers; an
exhausted stream is the read/parse failure (both unwraps are fatal). -/
def op_input (cpu : Cpu) (inputs : List Int) (args : List Parameter) :
    Except Fault (Cpu × List Int) :=
  match args with
  | [p0] =>
    match unpack_parameter cpu p0 with
    | Except.error f => Except.error f
    | Except.ok dest =>
      match inputs with
      | [] => Except.error Fault.inputFailure
      | v :: rest =>
        match writeMem cpu.memory (castUsize dest) v with
        | Except.error f => Except.error f
        | Except.ok m2 => Except.ok ({ cpu with memory := m2 }, rest)
  | _ => Except.error Fault.assertionFailure

/-- Cpu::op_output: takes &self, emits the unpacked operand value. -/
def op_output (cpu : Cpu) (args : List Parameter) : Except Fault Int :=
  match args with
  | [p0] => unpack_parameter cpu p0
  | _ => Except.error Fault.assertionFailure

/-- Cpu::op_jump: if (unpack(args[0]) != 0) == test then
ip = unpack(args[1]) as usize; otherwise ip is untouched. -/
def op_jump (cpu : Cpu) (test : Bool) (args : List Parameter) : Except Fault Cpu :=
  match args with
  | [p0, p1] =>
    match unpack_parameter cpu p0 with
    | Except.error f => Except.error f
    | Except.ok a =>
      if (a != 0) = test then
        match unpack_parameter cpu p1 with
        | Except.error f => Except.error f
        | Except.ok b => Except.ok { cpu with ip := castUsize b }
      else Except.ok cpu
  | _ => Except.error Fault.assertionFailure

/-- Cpu::op_lessthan: stores (val(p0) < val(p1)) as i64 at the Position
destination; like op_add it panics on any non-Position destination. -/
def op_lessthan (cpu : Cpu) (args : List Parameter) : Except Fault Cpu :=
  match args with
  | [p0, p1, p2] =>
    match p2 with
    | Parameter.Position dest =>
      match unpack_parameter cpu p0 with
      | Except.error f => Except.error f
      | Except.ok a =>
        match unpack_parameter cpu p1 with
        | Except.error f => Except.error f
        | Except.ok b =>
          match writeMem cpu.memory (castUsize dest) (if a < b then 1 else 0) with
          | Except.error f => Except.error f
          | Except.ok m2 => Except.ok { cpu with memory := m2 }
    | _ => Except.error Fault.invalidWriteDestination
  | _ => Except.error Fault.assertionFailure

/-- Cpu::op_equals: stores (val(p0) == val(p1)) as i64, same shape. -/
def op_equals (cpu : Cpu) (args : List Parameter) : Except Fault Cpu :=
  match args with
  | [p0, p1, p2] =>
    match p2 with
    | Parameter.Position dest =>
      match unpack_parameter cpu p0 with
      | Except.error f => Except.error f
      | Except.ok a =>
        match unpack_parameter cpu p1 with
        | Except.error f => Except.error f
        | Except.ok b =>
          match writeMem cpu.memory (castUsize dest) (if a = b then 1 else 0) with
          | Except.error f => Except.error f
          | Except.ok m2 => Except.ok { cpu with memory := m2 }
    | _ => Except.error Fault.invalidWriteDestination
  | _ => Except.error Fault.assertionFailure

/-- Cpu::op_relbase: rbase += unpack(args[0]); no memory write. -/
def op_relbase (cpu : Cpu) (args : List Parameter) : Except Fault Cpu :=
  match args with
  | [p0] =>
    match unpack_parameter cpu p0 with
    | Except.error f => Except.error f
    | Except.ok v => Except.ok { cpu with rbase := cpu.rbase + v }
  | _ => Except.error Fault.assertionFailure

/-- The interpreter together with its external I/O collaborators:
a pre-parsed input stream and the list of emitted outputs. -/
structure Machine where
  cpu : Cpu
  inputs : List Int
  outputs : List Int
deriving DecidableEq

/-- One iteration of Cpu::run ends by continuing or by leaving the loop. -/
inductive StepResult where
  | next (m : Machine)
  | halted (m : Machine)
deriving DecidableEq

/-- One iteration of the while loop in Cpu::run: the `ip < memory.len()`
boundary check, then fetch-decode, then the dispatch match
(HALT breaks the loop). -/
def step (m : Machine) : Except Fault StepResult :=
  if hasIndex m.cpu.memory m.cpu.ip then
    match fetch_and_decode m.cpu with
    | Except.error f => Except.error f
    | Except.ok (inst, cpu) =>
      match inst with
      | Instruction.ADD args =>
        (match op_add cpu args with
         | Except.error f => Except.error f
         | Except.ok c => Except.ok (StepResult.next { m with cpu := c }))
      | Instruction.MUL args =>
        (match op_mul cpu args with
         | Except.error f => Except.error f
         | Except.ok c => Except.ok (StepResult.next { m with cpu := c }))
      | Instruction.INPUT args =>
        (match op_input cpu m.inputs args with
         | Except.error f => Except.error f
         | Except.ok (c, ins) =>
           Except.ok (StepResult.next { cpu := c, inputs := ins, outputs := m.outputs }))
      | Instruction.OUTPUT args =>
        (match op_output cpu args with
         | Except.error f => Except.error f
         | Except.ok v =>
           Except.ok (StepResult.next
             { cpu := cpu, inputs := m.inputs, outputs := m.outputs ++ [v] }))
      | Instruction.JUMP t args =>
        (match op_jump cpu t args with
         | Except.error f => Except.error f
         | Except.ok c => Except.ok (StepResult.next { m with cpu := c }))
      | Instruction.LESSTHAN args =>
        (match op_lessthan cpu args with
         | Except.error f => Except.error f
         | Except.ok c => Except.ok (StepResult.next { m with cpu := c }))
      | Instruction.EQUALS args =>
        (match op_equals cpu args with
         | Except.error f => Except.error f
         | Except.ok c => Except.ok (StepResult.next { m with cpu := c }))
      | Instruction.RELBASE args =>
        (match op_relbase cpu args with
         | Except.error f => Except.error f
         | Except.ok c => Except.ok (StepResult.next { m with cpu := c }))
      | Instruction.HALT => Except.ok (StepResult.halted { m with cpu := cpu })
  else Except.ok (StepResult.halted m)

/-- Cpu::run driven by fuel: `Except.ok (some m)` is a completed run
(Halt or the boundary exit), `Except.ok none` is fuel exhaustion,
`Except.error f` is a panic. -/
def run : Nat → Machine → Except Fault (Option Machine)
  | 0, _ => Except.ok none
  | n + 1, m =>
    match step m with
    | Except.error f => Except.error f
    | Except.ok (StepResult.halted m1) => Except.ok (some m1)
    | Except.ok (StepResult.next m1) => run n m1

/-- A fresh machine: Cpu::new on the program, the given input stream,
no outputs yet. -/
def mkMachine (prog inputs : List Int) : Machine :=
  { cpu := Cpu.new prog, inputs := inputs, outputs := [] }

/-- The value at memory address `addr` after a completed run,
or none if the run faulted or ran out of fuel. -/
def memAfterRun (fuel : Nat) (prog inputs : List Int) (addr : Nat) : Option Int :=
  match run fuel (mkMachine prog inputs) with
  | Except.ok (some m) => readIdx m.cpu.memory addr
  | _ => none

/-! ## Bridge lemmas: the walking accessors against the length-based view -/

theorem readIdx_eq_getElem (m : List Int) (i : Nat) : readIdx m i = m[i]? := by
  induction m generalizing i with
  | nil => simp [readIdx]
  | cons a l ih =>
    cases i with
    | zero => simp [readIdx]
    | succ n => simp [readIdx, ih]

theorem hasIndex_eq (m : List Int) (i : Nat) : hasIndex m i = decide (i < m.length) := by
  induction m generalizing i with
  | nil => simp [hasIndex]
  | cons a l ih =>
    cases i with
    | zero => simp [hasIndex]
    | succ n => simp [hasIndex, ih, Nat.succ_lt_succ_iff]

theorem writeIdx_eq_set (m : List Int) (i : Nat) (v : Int) :
    writeIdx m i v = if i < m.length then some (m.set i v) else none := by
  induction m generalizing i with
  | nil => simp [writeIdx]
  | cons a l ih =>
    cases i with
    | zero => simp [writeIdx]
    | succ n =>
      have hstep : writeIdx (a :: l) (n + 1) v =
          (match writeIdx l n v with
           | none => none
           | some l2 => some (a :: l2)) := rfl
      rw [hstep, ih]
      by_cases h : n < l.length
      · rw [if_pos h, if_pos (by simpa [Nat.succ_lt_succ_iff] using h)]
        rfl
      · rw [if_neg h, if_neg (by simpa [Nat.succ_lt_succ_iff] using h)]

theorem writeMem_eq (m : List Int) (i : Nat) (v : Int) :
    writeMem m i v = if i < m.length then Except.ok (m.set i v)
      else Except.error (Fault.memoryOutOfBounds i) := by
  unfold writeMem
  rw [writeIdx_eq_set]
  by_cases hlt : i < m.length
  · rw [if_pos hlt, if_pos hlt]
  · rw [if_neg hlt, if_neg hlt]

theorem readMem_oob {m : List Int} {i : Nat} (h : m.length ≤ i) :
    readMem m i = Except.error (Fault.memoryOutOfBounds i) := by
  unfold readMem
  rw [readIdx_eq_getElem, List.getElem?_eq_none h]

theorem writeMem_oob {m : List Int} {i : Nat} (v : Int) (h : m.length ≤ i) :
    writeMem m i v = Except.error (Fault.memoryOutOfBounds i) := by
  rw [writeMem_eq, if_neg (by omega)]

theorem writeMem_ok_length {m : List Int} {i : Nat} {v : Int} {m2 : List Int}
    (h : writeMem m i v = Except.ok m2) : m2.length = m.length := by
  rw [writeMem_eq] at h
  by_cases hlt : i < m.length
  · rw [if_pos hlt] at h
    have h2 : m.set i v = m2 := Except.ok.inj h
    rw [← h2, List.length_set]
  · rw [if_neg hlt] at h
    exact Except.noConfusion h

/-! ## Frame lemmas: which parts of the state each operation can touch -/

theorem pack_parameters_frame {cpu : Cpu} {cnt : Nat} {ps : List Parameter} {c : Cpu}
    (h : pack_parameters cpu cnt = Except.ok (ps, c)) :
    c.rbase = cpu.rbase ∧ c.memory = cpu.memory ∧ c.ip = cpu.ip + cnt := by
  unfold pack_parameters at h
  repeat' split at h
  all_goals try exact Except.noConfusion h
  have h2 := Except.ok.inj h
  have h3 : ({ cpu with ip := cpu.ip + cnt } : Cpu) = c := congrArg Prod.snd h2
  rw [← h3]
  exact ⟨rfl, rfl, rfl⟩

theorem decodeWith_frame {cpu : Cpu} {cnt : Nat} {ctor : List Parameter → Instruction}
    {i : Instruction} {c : Cpu}
    (h : decodeWith cpu cnt ctor = Except.ok (i, c)) :
    c.rbase = cpu.rbase ∧ c.memory = cpu.memory := by
  unfold decodeWith at h
  split at h
  next => exact Except.noConfusion h
  next a c1 heq =>
    have h2 := Except.ok.inj h
    have h3 : c1 = c := congrArg Prod.snd h2
    have h4 := pack_parameters_frame heq
    rw [← h3]
    exact ⟨h4.1, h4.2.1⟩

theorem fetch_decode_at_frame {cpu1 : Cpu} {i : Instruction} {c : Cpu}
    (h : fetch_decode_at cpu1 = Except.ok (i, c)) :
    c.rbase = cpu1.rbase ∧ c.memory = cpu1.memory := by
  unfold fetch_decode_at at h
  repeat' split at h
  all_goals try exact Except.noConfusion h
  all_goals try exact decodeWith_frame h
  have h2 := Except.ok.inj h
  have h3 : cpu1 = c := congrArg Prod.snd h2
  rw [← h3]
  exact ⟨rfl, rfl⟩

theorem fetch_and_decode_frame {cpu : Cpu} {i : Instruction} {c : Cpu}
    (h : fetch_and_decode cpu = Except.ok (i, c)) :
    c.rbase = cpu.rbase ∧ c.memory = cpu.memory := by
  unfold fetch_and_decode at h
  exact @fetch_decode_at_frame { cpu with ip := cpu.ip + 1 } i c h

theorem op_add_frame {cpu : Cpu} {args : List Parameter} {c : Cpu}
    (h : op_add cpu args = Except.ok c) :
    c.ip = cpu.ip ∧ c.rbase = cpu.rbase ∧ c.memory.length = cpu.memory.length := by
  unfold op_add at h
  repeat' split at h
  all_goals try exact Except.noConfusion h
  next m2 hw =>
    have h2 := Except.ok.inj h
    rw [← h2]
    exact ⟨rfl, rfl, writeMem_ok_length hw⟩

theorem op_mul_frame {cpu : Cpu} {args : List Parameter} {c : Cpu}
    (h : op_mul cpu args = Except.ok c) :
    c.ip = cpu.ip ∧ c.rbase = cpu.rbase ∧ c.memory.length = cpu.memory.length := by
  unfold op_mul at h
  repeat' split at h
  all_goals try exact Except.noConfusion h
  next m2 hw =>
    have h2 := Except.ok.inj h
    rw [← h2]
    exact ⟨rfl, rfl, writeMem_ok_length hw⟩

theorem op_lessthan_frame {cpu : Cpu} {args : List Parameter} {c : Cpu}
    (h : op_lessthan cpu args = Except.ok c) :
    c.ip = cpu.ip ∧ c.rbase = cpu.rbase ∧ c.memory.length = cpu.memory.length := by
  unfold op_lessthan at h
  repeat' split at h
  all_goals try exact Except.noConfusion h
  next m2 hw =>
    have h2 := Except.ok.inj h
    rw [← h2]
    exact ⟨rfl, rfl, writeMem_ok_length hw⟩

theorem op_equals_frame {cpu : Cpu} {args : List Parameter} {c : Cpu}
    (h : op_equals cpu args = Except.ok c) :
    c.ip = cpu.ip ∧ c.rbase = cpu.rbase ∧ c.memory.length = cpu.memory.length := by
  unfold op_equals at h
  repeat' split at h
  all_goals try exact Except.noConfusion h
  next m2 hw =>
    have h2 := Except.ok.inj h
    rw [← h2]
    exact ⟨rfl, rfl, writeMem_ok_length hw⟩

theorem op_input_frame {cpu : Cpu} {inputs : List Int} {args : List Parameter}
    {c : Cpu} {ins2 : List Int}
    (h : op_input cpu inputs args = Except.ok (c, ins2)) :
    c.ip = cpu.ip ∧ c.rbase = cpu.rbase ∧ c.memory.length = cpu.memory.length := by
  unfold op_input at h
  repeat' split at h
  all_goals try exact Except.noConfusion h
  next m2 hw =>
    have h2 := Except.ok.inj h
    have h3 : ({ cpu with memory := m2 } : Cpu) = c := congrArg Prod.fst h2
    rw [← h3]
    exact ⟨rfl, rfl, writeMem_ok_length hw⟩

theorem op_jump_frame {cpu : Cpu} {test : Bool} {args : List Parameter} {c : Cpu}
    (h : op_jump cpu test args = Except.ok c) :
    c.rbase = cpu.rbase ∧ c.memory = cpu.memory := by
  unfold op_jump at h
  repeat' split at h
  all_goals try exact Except.noConfusion h
  all_goals have h2 := Except.ok.inj h
  all_goals rw [← h2]
  all_goals exact ⟨rfl, rfl⟩

theorem op_relbase_frame {cpu : Cpu} {args : List Parameter} {c : Cpu}
    (h : op_relbase cpu args = Except.ok c) :
    c.ip = cpu.ip ∧ c.memory = cpu.memory := by
  unfold op_relbase at h
  repeat' split at h
  all_goals try exact Except.noConfusion h
  have h2 := Except.ok.inj h
  rw [← h2]
  exact ⟨rfl, rfl⟩

/-- Unfolding lemma: the memory built by Cpu::new is the resized program. -/
theorem Cpu.new_memory (prog : List Int) : (Cpu.new prog).memory = resize prog 4096 := rfl

/-- Vec::resize(n, 0) always leaves the vector with length exactly n,
whether it pads or truncates. -/
theorem resize_length (v : List Int) (n : Nat) : (resize v n).length = n := by
  unfold resize
  by_cases h : v.length ≤ n
  · rw [if_pos h, List.length_append, List.length_replicate]
    omega
  · rw [if_neg h, List.length_take]
    omega

/-! ## The claims -/

/-- Claim C1 (refuted by the code, which contradicts its own panic message):
the spec requires a writing instruction whose destination decodes in
Relative mode to write to memory at rbase + offset; the code instead hits
the invalid-write-destination panic (whose message says only Immediate
destinations should be rejected) for EVERY non-Position destination.
First conjunct: op_add with any Relative destination faults unconditionally.
Second conjunct: the concrete program [109, 5, 21101, 1, 2, 3, 99], which
sets rbase to 5 and then adds 1 + 2 with Relative destination 3, faults
instead of writing 3 to address 8. -/
theorem relative_dest_write_faults :
    (∀ (cpu : Cpu) (p0 p1 : Parameter) (d : Int),
        op_add cpu [p0, p1, Parameter.Relative d] =
          Except.error Fault.invalidWriteDestination) ∧
    run 4 (mkMachine [109, 5, 21101, 1, 2, 3, 99] []) =
      Except.error Fault.invalidWriteDestination :=
  ⟨fun _ _ _ _ => rfl, rfl⟩

/-- Claim C2 (refuted by the code): Input with a Position-mode destination
carrying raw value d should store the input at address d, but op_input
first DEREFERENCES the parameter (dest = unpack_parameter(args[0]) =
memory[d]) and stores at memory[memory[d]]. Running [3, 3, 99, 7] with
input 5: the claim predicts memory[3] = 5, yet the run completes with
memory[3] still 7 and the input landed at address 7. -/
theorem input_dest_dereferenced :
    memAfterRun 4 [3, 3, 99, 7] [5] 3 = some 7 ∧
    memAfterRun 4 [3, 3, 99, 7] [5] 7 = some 5 :=
  ⟨rfl, rfl⟩

/-- Claim C3 counterexample: for the 4097-word program consisting of 4097
sevens, Vec::resize(4096, 0) TRUNCATES, so the constructed memory (length
4096) is shorter than the program -- the capacity is not "at least the
program's length" and the last program word is discarded. -/
theorem new_truncates_long_program :
    (Cpu.new (List.replicate 4097 (7 : Int))).memory.length = 4096 ∧
    ¬ ((List.replicate 4097 (7 : Int)).length ≤
        (Cpu.new (List.replicate 4097 (7 : Int))).memory.length) := by
  have h1 : (Cpu.new (List.replicate 4097 (7 : Int))).memory.length = 4096 := by
    rw [Cpu.new_memory, resize_length]
  refine ⟨h1, ?_⟩
  rw [h1, List.length_replicate]
  omega

/-- Claim C3 (amended): construction yields ip = 0, rbase = 0 and memory =
program padded with zeros up to the fixed capacity 4096 PROVIDED the
program has at most 4096 words; a longer program is truncated to its first
4096 words (see the counterexample). -/
theorem new_pads_short_program (prog : List Int) (h : prog.length ≤ 4096) :
    Cpu.new prog =
      { ip := 0, rbase := 0,
        memory := prog ++ List.replicate (4096 - prog.length) 0 } := by
  unfold Cpu.new resize
  rw [if_pos h]

/-- Witness for the amended claim C3 at the concrete program [1, 2, 3]. -/
theorem new_pads_short_program_witness :
    Cpu.new [1, 2, 3] =
      { ip := 0, rbase := 0,
        memory := [1, 2, 3] ++ List.replicate (4096 - ([1, 2, 3] : List Int).length) 0 } :=
  new_pads_short_program [1, 2, 3] (by decide)

/-- Claim C4: whenever fetch-decode produces an Add, Multiply, LessThan or
Equals instruction whose destination (third) parameter decoded in Immediate
mode, the step faults with the invalid-write-destination panic; no updated
state is produced (the error carries no machine), so memory is not written. -/
theorem immediate_dest_faults (m : Machine) (cpu1 : Cpu) (p0 p1 : Parameter) (d : Int)
    (hip : hasIndex m.cpu.memory m.cpu.ip = true)
    (hd : fetch_and_decode m.cpu =
            Except.ok (Instruction.ADD [p0, p1, Parameter.Immediate d], cpu1) ∨
          fetch_and_decode m.cpu =
            Except.ok (Instruction.MUL [p0, p1, Parameter.Immediate d], cpu1) ∨
          fetch_and_decode m.cpu =
            Except.ok (Instruction.LESSTHAN [p0, p1, Parameter.Immediate d], cpu1) ∨
          fetch_and_decode m.cpu =
            Except.ok (Instruction.EQUALS [p0, p1, Parameter.Immediate d], cpu1)) :
    step m = Except.error Fault.invalidWriteDestination := by
  unfold step
  rw [if_pos hip]
  rcases hd with h | h | h | h <;> rw [h] <;> rfl

/-- Witness for claim C4: the program [11101, 2, 3, 5, 99] decodes to an
Add with all-Immediate parameters, and stepping it faults. -/
theorem immediate_dest_faults_witness :
    step { cpu := { ip := 0, rbase := 0, memory := [11101, 2, 3, 5, 99] },
           inputs := [], outputs := [] } =
      Except.error Fault.invalidWriteDestination :=
  immediate_dest_faults
    { cpu := { ip := 0, rbase := 0, memory := [11101, 2, 3, 5, 99] },
      inputs := [], outputs := [] }
    { ip := 4, rbase := 0, memory := [11101, 2, 3, 5, 99] }
    (Parameter.Immediate 2) (Parameter.Immediate 3) 5 rfl (Or.inl rfl)

/-- Claim C5: the two spec round-trip programs, run to completion on the
real interpreter (4096-word memory), leave memory[4] = 99. A `some` result
asserts the run completed without fault or fuel exhaustion. -/
theorem example_programs_mem4 :
    memAfterRun 16 [1101, 100, -1, 4, 0] [] 4 = some 99 ∧
    memAfterRun 16 [1002, 4, 3, 4, 33] [] 4 = some 99 :=
  ⟨rfl, rfl⟩

/-- Claim C6: JumpIfTrue (test = true) sets ip to the second operand's
value (cast through usize, as the code's `as usize` does) exactly when the
first operand's value is nonzero, and otherwise leaves the cpu untouched;
JumpIfFalse (test = false) is the same with the condition inverted. -/
theorem jump_semantics (cpu : Cpu) (p0 p1 : Parameter) (a b : Int)
    (h0 : unpack_parameter cpu p0 = Except.ok a)
    (h1 : unpack_parameter cpu p1 = Except.ok b) :
    op_jump cpu true [p0, p1] =
      Except.ok (if a ≠ 0 then { cpu with ip := castUsize b } else cpu) ∧
    op_jump cpu false [p0, p1] =
      Except.ok (if a = 0 then { cpu with ip := castUsize b } else cpu) := by
  constructor <;>
  · simp only [op_jump, h0, h1]
    by_cases ha : a = 0 <;> simp [ha]

/-- Witness for claim C6 at operands 1 (nonzero condition) and 3 (target). -/
theorem jump_semantics_witness :
    op_jump { ip := 0, rbase := 0, memory := [7] } true
        [Parameter.Immediate 1, Parameter.Immediate 3] =
      Except.ok { ip := 3, rbase := 0, memory := [7] } ∧
    op_jump { ip := 0, rbase := 0, memory := [7] } false
        [Parameter.Immediate 1, Parameter.Immediate 3] =
      Except.ok { ip := 0, rbase := 0, memory := [7] } := by
  have h := jump_semantics { ip := 0, rbase := 0, memory := [7] }
    (Parameter.Immediate 1) (Parameter.Immediate 3) 1 3 rfl rfl
  exact ⟨h.1.trans rfl, h.2.trans rfl⟩

/-- Claim C7: when ip has reached or passed the end of allocated memory,
the run loop's boundary check itself terminates the run normally: the
step reports a (non-fault) halt with the machine unchanged, and the whole
run returns that machine successfully. -/
theorem boundary_termination (m : Machine) (fuel : Nat)
    (h : m.cpu.memory.length ≤ m.cpu.ip) :
    step m = Except.ok (StepResult.halted m) ∧
    run (fuel + 1) m = Except.ok (some m) := by
  have hb : ¬ (hasIndex m.cpu.memory m.cpu.ip = true) := by
    simp only [hasIndex_eq, decide_eq_true_eq]
    omega
  have hs : step m = Except.ok (StepResult.halted m) := by
    unfold step
    rw [if_neg hb]
  have hr : run (fuel + 1) m =
      (match step m with
       | Except.error f => Except.error f
       | Except.ok (StepResult.halted m1) => Except.ok (some m1)
       | Except.ok (StepResult.next m1) => run fuel m1) := rfl
  refine ⟨hs, ?_⟩
  rw [hr, hs]

/-- Witness for claim C7: a 3-word memory with ip = 5 halts by boundary. -/
theorem boundary_termination_witness :
    step { cpu := { ip := 5, rbase := 0, memory := [1, 2, 3] },
           inputs := [], outputs := [] } =
      Except.ok (StepResult.halted
        { cpu := { ip := 5, rbase := 0, memory := [1, 2, 3] },
          inputs := [], outputs := [] }) ∧
    run 1 { cpu := { ip := 5, rbase := 0, memory := [1, 2, 3] },
            inputs := [], outputs := [] } =
      Except.ok (some { cpu := { ip := 5, rbase := 0, memory := [1, 2, 3] },
                        inputs := [], outputs := [] }) :=
  boundary_termination
    { cpu := { ip := 5, rbase := 0, memory := [1, 2, 3] },
      inputs := [], outputs := [] } 0 (by decide)

/-- Claim C8: an opcode word w at ip whose low two decimal digits
(w % 100, truncated i64 remainder) are not in {1,...,9,99} makes the step
fault with InvalidOpcode carrying that opcode value and the position ip of
the opcode word; the error is raised at fetch-decode, before any
instruction effect. -/
theorem invalid_opcode_faults (m : Machine) (w : Int)
    (hip : hasIndex m.cpu.memory m.cpu.ip = true)
    (hw : readMem m.cpu.memory m.cpu.ip = Except.ok w)
    (hop : w.tmod 100 ∉ ([1, 2, 3, 4, 5, 6, 7, 8, 9, 99] : List Int)) :
    step m = Except.error (Fault.invalidOpcode (w.tmod 100) m.cpu.ip) := by
  simp only [List.mem_cons, List.not_mem_nil, or_false, not_or] at hop
  obtain ⟨n1, n2, n3, n4, n5, n6, n7, n8, n9, n99⟩ := hop
  unfold step
  rw [if_pos hip]
  unfold fetch_and_decode fetch_decode_at
  dsimp only
  rw [Nat.add_sub_cancel, hw]
  dsimp only
  rw [if_neg n1, if_neg n2, if_neg n3, if_neg n4, if_neg n5, if_neg n6,
      if_neg n7, if_neg n8, if_neg n9, if_neg n99]

/-- Witness for claim C8: the single word 42 is an invalid opcode at
position 0. -/
theorem invalid_opcode_faults_witness :
    step { cpu := { ip := 0, rbase := 0, memory := [42] },
           inputs := [], outputs := [] } =
      Except.error (Fault.invalidOpcode 42 0) :=
  invalid_opcode_faults
    { cpu := { ip := 0, rbase := 0, memory := [42] },
      inputs := [], outputs := [] } 42 rfl rfl (by decide)

/-- Claim C9: no instruction other than AdjustRelativeBase changes rbase --
every successful Add, Multiply, Input, Jump, LessThan, Equals execution,
and fetch-decode itself, returns a cpu with the prior rbase (Output takes
&self and by its type cannot change any state; Halt only breaks the loop) --
and a successful AdjustRelativeBase with operand value v returns exactly
the prior cpu with rbase replaced by rbase + v: same ip, all memory cells
unchanged. -/
theorem rbase_frame :
    (∀ (cpu : Cpu) (args : List Parameter) (c : Cpu),
        op_add cpu args = Except.ok c → c.rbase = cpu.rbase) ∧
    (∀ (cpu : Cpu) (args : List Parameter) (c : Cpu),
        op_mul cpu args = Except.ok c → c.rbase = cpu.rbase) ∧
    (∀ (cpu : Cpu) (ins : List Int) (args : List Parameter) (c : Cpu) (ins2 : List Int),
        op_input cpu ins args = Except.ok (c, ins2) → c.rbase = cpu.rbase) ∧
    (∀ (cpu : Cpu) (t : Bool) (args : List Parameter) (c : Cpu),
        op_jump cpu t args = Except.ok c → c.rbase = cpu.rbase) ∧
    (∀ (cpu : Cpu) (args : List Parameter) (c : Cpu),
        op_lessthan cpu args = Except.ok c → c.rbase = cpu.rbase) ∧
    (∀ (cpu : Cpu) (args : List Parameter) (c : Cpu),
        op_equals cpu args = Except.ok c → c.rbase = cpu.rbase) ∧
    (∀ (cpu : Cpu) (i : Instruction) (c : Cpu),
        fetch_and_decode cpu = Except.ok (i, c) → c.rbase = cpu.rbase) ∧
    (∀ (cpu : Cpu) (p : Parameter) (v : Int),
        unpack_parameter cpu p = Except.ok v →
        op_relbase cpu [p] = Except.ok { cpu with rbase := cpu.rbase + v }) := by
  refine ⟨?_, ?_, ?_, ?_, ?_, ?_, ?_, ?_⟩
  · exact fun cpu args c h => (op_add_frame h).2.1
  · exact fun cpu args c h => (op_mul_frame h).2.1
  · exact fun cpu ins args c ins2 h => (op_input_frame h).2.1
  · exact fun cpu t args c h => (op_jump_frame h).1
  · exact fun cpu args c h => (op_lessthan_frame h).2.1
  · exact fun cpu args c h => (op_equals_frame h).2.1
  · exact fun cpu i c h => (fetch_and_decode_frame h).1
  · intro cpu p v hu
    simp only [op_relbase, hu]

/-- Witness for claim C9: an Add execution leaves rbase at 0, and an
AdjustRelativeBase by 7 on rbase 3 yields rbase 3 + 7 with memory intact. -/
theorem rbase_frame_witness :
    ({ ip := 0, rbase := 0, memory := [5, 2, 3, 0, 99] } : Cpu).rbase =
      ({ ip := 0, rbase := 0, memory := [1101, 2, 3, 0, 99] } : Cpu).rbase ∧
    op_relbase { ip := 0, rbase := 3, memory := [9, 7, 99] }
        [Parameter.Immediate 7] =
      Except.ok { ({ ip := 0, rbase := 3, memory := [9, 7, 99] } : Cpu) with
                  rbase := 3 + 7 } := by
  constructor
  · exact rbase_frame.1 { ip := 0, rbase := 0, memory := [1101, 2, 3, 0, 99] }
      [Parameter.Immediate 2, Parameter.Immediate 3, Parameter.Position 0]
      { ip := 0, rbase := 0, memory := [5, 2, 3, 0, 99] } rfl
  · exact rbase_frame.2.2.2.2.2.2.2 { ip := 0, rbase := 3, memory := [9, 7, 99] }
      (Parameter.Immediate 7) 7 rfl

/-- Claim C10: construction always allocates exactly 4096 words whatever
the program's length; every successful instruction execution (and
fetch-decode) preserves the memory length; and any read or write at an
address at or beyond the memory length -- as performed by operand or
destination resolution -- is the fatal MemoryOutOfBounds fault. -/
theorem memory_capacity_invariant :
    (∀ prog : List Int, (Cpu.new prog).memory.length = 4096) ∧
    (∀ (cpu : Cpu) (args : List Parameter) (c : Cpu),
        op_add cpu args = Except.ok c → c.memory.length = cpu.memory.length) ∧
    (∀ (cpu : Cpu) (args : List Parameter) (c : Cpu),
        op_mul cpu args = Except.ok c → c.memory.length = cpu.memory.length) ∧
    (∀ (cpu : Cpu) (ins : List Int) (args : List Parameter) (c : Cpu) (ins2 : List Int),
        op_input cpu ins args = Except.ok (c, ins2) →
        c.memory.length = cpu.memory.length) ∧
    (∀ (cpu : Cpu) (t : Bool) (args : List Parameter) (c : Cpu),
        op_jump cpu t args = Except.ok c → c.memory.length = cpu.memory.length) ∧
    (∀ (cpu : Cpu) (args : List Parameter) (c : Cpu),
        op_lessthan cpu args = Except.ok c → c.memory.length = cpu.memory.length) ∧
    (∀ (cpu : Cpu) (args : List Parameter) (c : Cpu),
        op_equals cpu args = Except.ok c → c.memory.length = cpu.memory.length) ∧
    (∀ (cpu : Cpu) (args : List Parameter) (c : Cpu),
        op_relbase cpu args = Except.ok c → c.memory.length = cpu.memory.length) ∧
    (∀ (cpu : Cpu) (i : Instruction) (c : Cpu),
        fetch_and_decode cpu = Except.ok (i, c) →
        c.memory.length = cpu.memory.length) ∧
    (∀ (mem : List Int) (i : Nat), mem.length ≤ i →
        readMem mem i = Except.error (Fault.memoryOutOfBounds i) ∧
        ∀ v : Int, writeMem mem i v = Except.error (Fault.memoryOutOfBounds i)) := by
  refine ⟨?_, ?_, ?_, ?_, ?_, ?_, ?_, ?_, ?_, ?_⟩
  · intro prog
    show (resize prog 4096).length = 4096
    unfold resize
    by_cases h : prog.length ≤ 4096
    · rw [if_pos h, List.length_append, List.length_replicate]
      omega
    · rw [if_neg h, List.length_take]
      omega
  · exact fun cpu args c h => (op_add_frame h).2.2
  · exact fun cpu args c h => (op_mul_frame h).2.2
  · exact fun cpu ins args c ins2 h => (op_input_frame h).2.2
  · exact fun cpu t args c h => congrArg List.length (op_jump_frame h).2
  · exact fun cpu args c h => (op_lessthan_frame h).2.2
  · exact fun cpu args c h => (op_equals_frame h).2.2
  · exact fun cpu args c h => congrArg List.length (op_relbase_frame h).2
  · exact fun cpu i c h => congrArg List.length (fetch_and_decode_frame h).2
  · exact fun mem i h => ⟨readMem_oob h, fun v => writeMem_oob v h⟩

/-- Witness for claim C10: reading or writing address 5 of a 2-word memory
faults. -/
theorem memory_capacity_invariant_witness :
    readMem [1, 2] 5 = Except.error (Fault.memoryOutOfBounds 5) ∧
    writeMem [1, 2] 5 9 = Except.error (Fault.memoryOutOfBounds 5) := by
  have h := memory_capacity_invariant.2.2.2.2.2.2.2.2.2 [1, 2] 5 (by decide)
  exact ⟨h.1, h.2 9⟩

end Aoc9
